import Mathlib

/-!
# Verification of the group-state and score subsystem of `src/utils.js`

A shallow embedding of the group-record store, the group-info refresher,
the per-thread property updater with its advisory lock set, the score
ledger, and event creation, translated from `src/utils.js`.

Modelling conventions:
* JavaScript objects are association lists `List (String × JVal)` in
  insertion order; assignment (`o[k] = v`) replaces in place or appends.
* The KV cache (`mem`) stores the group map as one blob under the key
  `groups`; `JSON.stringify`/`JSON.parse` are modelled as the identity,
  so the blob holds the parsed mapping directly.
* Callback-style functions return their new state together with an
  explicit record of the callback invocations (and other emitted
  effects), so "the callback is never invoked" is expressible.
* `setTimeout` delays are recorded as `Ev.wait` events; since nothing
  else is interleaved in the modelled scenarios, the deferred body runs
  in place.
* `exports.sendMessage` (and its background `lastBotMessageID`
  bookkeeping, an effect of the external send completing) is modelled
  as the emission of an `Ev.msg` event.
-/

/-- JavaScript-like values, as stored in group records. -/
inductive JVal where
  | null
  | str (s : String)
  | num (n : Int)
  | bool (b : Bool)
  | obj (fields : List (String × JVal))
  | arr (elems : List JVal)

/-- A JavaScript object: fields in insertion order. -/
abbrev JObj := List (String × JVal)

/-- Property read `o[k]` on an association list. -/
def alistGet {α : Type} (l : List (String × α)) (k : String) : Option α :=
  match l with
  | [] => none
  | (k0, v0) :: rest => if k0 = k then some v0 else alistGet rest k

/-- Property write `o[k] = v`: replace in place, else append (JS field order). -/
def alistSet {α : Type} (l : List (String × α)) (k : String) (v : α) :
    List (String × α) :=
  match l with
  | [] => [(k, v)]
  | (k0, v0) :: rest =>
      if k0 = k then (k, v) :: rest else (k0, v0) :: alistSet rest k v

/-- Property deletion `delete o[k]`. -/
def alistDelete {α : Type} (l : List (String × α)) (k : String) :
    List (String × α) :=
  l.filter (fun p => p.1 ≠ k)

/-- JavaScript truthiness of a value. -/
def jsTruthy : JVal → Bool
  | JVal.null => false
  | JVal.str s => s ≠ ""
  | JVal.num n => n ≠ 0
  | JVal.bool b => b
  | JVal.obj _ => true
  | JVal.arr _ => true

/-- Accumulate the value of a decimal digit string ($48$ is the code
of the zero digit). -/
def parseDigits (cs : List Char) (acc : Nat) : Option Nat :=
  match cs with
  | [] => some acc
  | c :: rest =>
      if c.isDigit then parseDigits rest (10 * acc + (c.toNat - 48))
      else none

/-- `parseInt` on the decimal-integer strings this module writes
(`setScore` always stores an `Int` rendered in decimal, on which JS
`parseInt` agrees with this reading); inputs outside that domain
default to 0 (the JS `NaN` case is conflated with the `|| 0`-style
defaulting the callers rely on). -/
def parseIntJS (s : String) : Int :=
  match s.data with
  | [] => 0
  | c :: rest =>
      if c = '-' then
        match parseDigits rest 0 with
        | some n => -(Int.ofNat n)
        | none => 0
      else
        match parseDigits (c :: rest) 0 with
        | some n => Int.ofNat n
        | none => 0

/-- Modelled from the spec: values of `src/config.js`, which is not in
the sources (bot identity, owner thread, default title, vote points,
reminder lead time, silent-DB flag). -/
structure Config where
  botId : String
  botNameLong : String
  botNameShort : Option String
  ownerId : String
  defaultTitle : String
  dbFailSilently : Bool
  trigger : String
  votePoints : Option Int
  reminderTime : Int

/-- The stored mapping from `threadId` to group record (the parsed
content of the `groups` blob). -/
abbrev GroupMap := List (String × JObj)

/-- The KV cache as seen through the `groups` key, with failure
switches for its get/set operations. `blob = none` covers both an
absent key and an empty string (both parse to `{}` in the source). -/
structure GroupsStore where
  blob : Option GroupMap
  failGet : Bool
  failSet : Bool

/-- Observable effects emitted while running the embedded functions. -/
inductive Ev where
  | wait (ms : Nat)
  | memSet (g : GroupMap)
  | cb (r : Option String)
  | msg (text : String) (threadId : String)
  | log (text : String)
  | api (call : String)

/-- The in-memory module state: the cache plus the advisory lock list
`lockedThreads` (process-wide, reset on restart). -/
structure World where
  store : GroupsStore
  lockedThreads : List String

/-- `record.threadId`, read as the string used to key `groupData`. -/
def recThreadId (info : JObj) : String :=
  match alistGet info "threadId" with
  | some (JVal.str t) => t
  | _ => "undefined"

/-- `exports.getGroupData`: read the `groups` blob; on error propagate
it, otherwise parse (absent/empty means `{}`). -/
def getGroupData (st : GroupsStore) : Except String GroupMap :=
  if st.failGet then Except.error "memcache get error"
  else Except.ok (st.blob.getD [])

/-- `exports.getGroupInfo`: look the thread up in the group data; on a
read error propagate it, otherwise return the record or nothing. -/
def getGroupInfo (threadId : String) (st : GroupsStore) :
    Except String (Option JObj) :=
  match getGroupData st with
  | Except.error e => Except.error e
  | Except.ok groupData => Except.ok (alistGet groupData threadId)

/-- `exports.setGroupInfo`: read the whole map, insert the record and
write the whole map back. The result's second component records the
callback invocation: `none` means the callback was never invoked (the
source's `if (!err)` has no else branch, so a read error is swallowed);
`some r` means it was invoked with error `r` (`success ? null : err`). -/
def setGroupInfo (info : JObj) (st : GroupsStore) :
    GroupsStore × Option (Option String) × List Ev :=
  match getGroupData st with
  | Except.error _ => (st, none, [])
  | Except.ok groupData =>
      let groupData := alistSet groupData (recThreadId info) info
      if st.failSet then
        (st, some (some "memcache set error"), [Ev.memSet groupData])
      else
        ({ st with blob := some groupData }, some none, [Ev.memSet groupData])

/-- `exports.setGroupProperty`: if the thread is locked, do nothing at
all; otherwise mutate `info[key] = value`, push the thread id, wait the
fixed 1500 ms settle delay, persist the whole record via `setGroupInfo`
and, in its callback, unlock and invoke the caller's callback. When
`setGroupInfo` swallows its read error the lock is never removed and no
`Ev.cb` is emitted. -/
def setGroupProperty (key : String) (value : JVal) (info : JObj) (w : World) :
    World × JObj × List Ev :=
  if (w.lockedThreads.contains (recThreadId info)) = false then
    let info' := alistSet info key value
    let locked' := w.lockedThreads ++ [recThreadId info']
    match setGroupInfo info' w.store with
    | (st', none, evs) =>
        ({ store := st', lockedThreads := locked' }, info',
         Ev.wait 1500 :: evs)
    | (st', some r, evs) =>
        ({ store := st',
           lockedThreads := locked'.filter (fun t => t ≠ recThreadId info') },
         info', Ev.wait 1500 :: evs ++ [Ev.cb r])
  else (w, info, [])

/-- JS `x || d` on a possibly-absent string (empty string is falsy). -/
def jsOrStr (x : Option String) (d : String) : String :=
  match x with
  | some s => if s = "" then d else s
  | none => d

/-- A possibly-absent string as a stored value (undefined conflated
with null). -/
def jOptStr (x : Option String) : JVal :=
  match x with
  | some s => JVal.str s
  | none => JVal.null

/-- Read a string-valued field (non-strings coerce to `""`). -/
def strField (info : JObj) (k : String) : String :=
  match alistGet info k with
  | some (JVal.str s) => s
  | _ => ""

/-- Read an object-valued field (non-objects coerce to `{}`). -/
def objField (info : JObj) (k : String) : JObj :=
  match alistGet info k with
  | some (JVal.obj o) => o
  | _ => []

/-- A stored value as a string (alias values are strings). -/
def strOfJ : JVal → String
  | JVal.str s => s
  | _ => ""

/-- The provider's thread metadata (`api.getThreadInfo` payload). -/
structure ThreadData where
  threadName : Option String
  emoji : Option String
  imageSrc : Option String
  color : Option String
  nicknames : Option JObj
  adminIDs : Option (List JObj)
  participantIDs : List String
  isGroup : Bool

/-- One entry of the `api.getUserInfo` payload. -/
structure UserInfoEntry where
  firstName : String

/-- Oracles for the chat provider's two fetches used by the refresher. -/
structure Provider where
  threadInfo : Except String ThreadData
  userInfo : Except String (List (String × UserInfoEntry))

/-- Modelled from the spec: `configutils.getRegexFromMembers` is not in
the sources; the spec says `userRegExp` is "a precompiled pattern
matching any known member name or alias". Modelled as an alternation of
the given names. -/
def getRegexFromMembers (names : List String) : String :=
  "(" ++ String.intercalate "|" names ++ ")"

/-- Result of a refresher run: final store, the callback invocation
(`none` when the callback was never invoked), and the emitted effects. -/
structure URes where
  store : GroupsStore
  cb : Option (Option String × Option JObj)
  trace : List Ev

/-- Rebuild of `members`/`names` from the `getUserInfo` payload: the
source loops over `userData` and, for every id other than the bot's,
assigns `members[firstName.toLowerCase()] = id` and
`names[id] = firstName`. -/
def buildMembersNames (botId : String)
    (userData : List (String × UserInfoEntry)) : JObj × JObj :=
  userData.foldl
    (fun (mn : JObj × JObj) p =>
      if p.1 ≠ botId then
        (alistSet mn.1 (p.2.firstName.toLower) (JVal.str p.1),
         alistSet mn.2 p.1 (JVal.str p.2.firstName))
      else mn)
    ([], [])

/-- The body of the `getUserInfo` callback on success (source lines
287-314): rebuild `members` and `names` excluding the bot, recompute
`userRegExp` from member keys and alias values, and synthesize a name
from member names if the name is still the default. -/
def applyUserInfo (cfg : Config) (userData : List (String × UserInfoEntry))
    (info : JObj) : JObj :=
  let mn := buildMembersNames cfg.botId userData
  let info := alistSet info "members" (JVal.obj mn.1)
  let info := alistSet info "names" (JVal.obj mn.2)
  let aliases := (objField info "aliases").map
    (fun (p : String × JVal) => strOfJ p.2)
  let memberKeys := mn.1.map (fun (p : String × JVal) => p.1)
  let info := alistSet info "userRegExp"
    (JVal.str (getRegexFromMembers (memberKeys ++ aliases)))
  if strField info "name" = cfg.defaultTitle then
    let names := mn.2.map (fun (p : String × JVal) => strOfJ p.2)
    alistSet info "name"
      (JVal.str (jsOrStr (some (String.intercalate "/" names)) "Unnamed chat"))
  else info

/-- `exports.updateGroupInfo`, the Group Info Refresher (source lines
238-335): read the existing record and the owner record; on either read
failing, log and invoke the callback. Otherwise fetch thread metadata
(aborting, logging and calling back on failure), merge it into the
record, initialize one-time fields for a new record, rebuild
`members`/`names`/`userRegExp` from the participant fetch when it
succeeds, synthesize a name if still default, persist via
`setGroupInfo` and call back from its callback. -/
def updateGroupInfo (threadId : String) (message : Option JVal)
    (cfg : Config) (prov : Provider) (st : GroupsStore) : URes :=
  match getGroupInfo threadId st, getGroupInfo cfg.ownerId st with
  | Except.ok existingInfo, Except.ok ownerData =>
      let shouldSendMessage := !cfg.dbFailSilently || ownerData.isSome
      let isNew := existingInfo.isNone
      let introEvs :=
        if isNew then
          (if shouldSendMessage then
            [Ev.msg ("Hello! I am " ++ cfg.botNameLong ++
               (match cfg.botNameShort with
                | some s => ", but you can call me " ++ s
                | none => "") ++
               ". Give me a moment to collect some information about this chat before you use any commands.")
               threadId,
             Ev.api "changeNickname"]
          else []) ++ [Ev.api "muteThread"]
        else []
      match prov.threadInfo with
      | Except.error e =>
          { store := st, cb := some (some e, none),
            trace := introEvs ++
              [Ev.log ("Thread info not found for " ++ threadId), Ev.log e] }
      | Except.ok data =>
          let info := existingInfo.getD []
          let info := alistSet info "threadId" (JVal.str threadId)
          let info := alistSet info "lastMessage" (message.getD JVal.null)
          let info := alistSet info "name"
            (JVal.str (jsOrStr data.threadName cfg.defaultTitle))
          let info := alistSet info "emoji" (jOptStr data.emoji)
          let info := alistSet info "image" (jOptStr data.imageSrc)
          let info := alistSet info "color"
            (match data.color with
             | some c => if c = "" then JVal.null else JVal.str ("#" ++ c)
             | none => JVal.null)
          let info := alistSet info "nicknames"
            (JVal.obj (match data.nicknames with
              | some nn => alistDelete nn cfg.botId
              | none => []))
          let info := alistSet info "admins"
            (JVal.arr (match data.adminIDs with
              | some l => l.map (fun u => (alistGet u "id").getD JVal.null)
              | none => []))
          let info :=
            if isNew then
              let info := alistSet info "muted" (JVal.bool true)
              let info := alistSet info "playlists" (JVal.obj [])
              let info := alistSet info "aliases" (JVal.obj [])
              let info := alistSet info "pinned" (JVal.obj [])
              let info := alistSet info "events" (JVal.obj [])
              alistSet info "isGroup" (JVal.bool data.isGroup)
            else info
          let built :=
            match prov.userInfo with
            | Except.error _ => (info, ([] : List Ev))
            | Except.ok userData =>
                let info := applyUserInfo cfg userData info
                (info,
                 if isNew && shouldSendMessage then
                   [Ev.msg ("Bot added to new chat: \"" ++ strField info "name" ++ "\".")
                      cfg.ownerId]
                 else [])
          match setGroupInfo built.1 st with
          | (st', none, evs) =>
              { store := st', cb := none,
                trace := introEvs ++ built.2 ++ evs }
          | (st', some r, evs) =>
              { store := st', cb := some (r, some built.1),
                trace := introEvs ++ built.2 ++ evs ++
                  (if existingInfo.isNone && shouldSendMessage then
                    [Ev.msg ("All done! Use " ++ cfg.trigger ++
                       " help to see what I can do.") threadId]
                  else []) }
  | res1, _ =>
      let e : Option String :=
        match res1 with
        | Except.error e => some e
        | Except.ok _ => none
      { store := st, cb := some (e, none),
        trace := [Ev.log (e.getD "null")] }

/-- The error component of the refresher's callback invocation. -/
def cbErr (r : URes) : Option (Option String) :=
  r.cb.map (fun p => p.1)

/-- The record component of the refresher's callback invocation. -/
def cbInfo (r : URes) : Option JObj :=
  r.cb.bind (fun p => p.2)

/-- The flat score keyspace of the KV cache, with per-key failure
switches for get and set. -/
structure ScoreStore where
  data : List (String × String)
  failGet : List String
  failSet : List String

/-- `mem.get` on the score keyspace: error, or the value if present. -/
def scoreMemGet (st : ScoreStore) (k : String) : Except String (Option String) :=
  if st.failGet.contains k then Except.error "memcache get error"
  else Except.ok (alistGet st.data k)

/-- `mem.set` on the score keyspace: returns the new store, the error
passed to the callback, and the success flag. -/
def scoreMemSet (st : ScoreStore) (k v : String) :
    ScoreStore × Option String × Bool :=
  if st.failSet.contains k then (st, some "memcache set error", false)
  else ({ st with data := alistSet st.data k v }, none, true)

/-- `exports.setScore`: store the score under `userscore_<userId>`. -/
def setScore (userId : String) (score : String) (st : ScoreStore) :
    ScoreStore × Option String × Bool :=
  scoreMemSet st ("userscore_" ++ userId) score

/-- `exports.getScore`: read the score from `userscore_<userId>`. -/
def getScore (userId : String) (st : ScoreStore) :
    Except String (Option String) :=
  scoreMemGet st ("userscore_" ++ userId)

/-- One callback invocation of `updateScore`. -/
inductive ScoreCb where
  | fail (e : String)
  | done (err : Option String) (success : Bool) (newScore : Int)

/-- `exports.updateScore` (source lines 619-634): read the current
score; on a read error invoke the callback with the error and — since
the source has no `return` there — fall through anyway with an absent
value; take 0 if absent, add or subtract the configured points (default
5), write the result back as a string, and invoke the callback (again)
with the write result and the new score. -/
def updateScore (isAdd : Bool) (userId : String) (cfg : Config)
    (st : ScoreStore) : ScoreStore × List ScoreCb :=
  let res := getScore userId st
  let firstCb : List ScoreCb :=
    match res with
    | Except.error e => [ScoreCb.fail e]
    | Except.ok _ => []
  let val : Option String :=
    match res with
    | Except.error _ => none
    | Except.ok v => v
  let score : Int :=
    match val with
    | some s => parseIntJS s
    | none => 0
  let points : Int := cfg.votePoints.getD 5
  let newScore : Int := if isAdd then score + points else score - points
  match setScore userId (toString newScore) st with
  | (st', err, success) =>
      (st', firstCb ++ [ScoreCb.done err success newScore])

/-- Modelled: `getPrettyDateString` formats a timestamp through the
JS locale machinery, which is external; only the fact that some string
is produced matters here. -/
def prettyDate (ts : Int) : String :=
  toString ts

/-- ASCII lowercasing of one character (65-90 are the capitals). -/
def asciiLower (c : Char) : Char :=
  if 65 ≤ c.toNat ∧ c.toNat ≤ 90 then Char.ofNat (c.toNat + 32) else c

/-- `title.trim().toLowerCase()`: drop surrounding whitespace and
lowercase, written over the character list (JS semantics on the titles
involved). -/
def jsTrimLower (s : String) : String :=
  String.mk (((s.data.dropWhile Char.isWhitespace).reverse.dropWhile
    Char.isWhitespace).reverse.map asciiLower)

/-- `exports.addEvent` (source lines 1041-1090): normalize the title by
trim + lowercase; if an event under that key already exists, send an
error and stop. Otherwise parse the time (`parsedDate` is the
`chrono.parseDate` oracle; `none` on an unparseable time, which sends
an error and stops), compute the early-reminder time, send the
announcement (`sendRes` is the send oracle giving the message id), and
on a successful send store the new event under the key and persist it
through `setGroupProperty`. -/
def addEvent (title _atStr sender : String) (groupInfo : JObj)
    (threadId : String) (cfg : Config) (parsedDate : Option Int) (now : Int)
    (sendRes : Except String String) (w : World) : World × JObj × List Ev :=
  let keyTitle := jsTrimLower title
  let events := objField groupInfo "events"
  if (match alistGet events keyTitle with
      | some v => jsTruthy v
      | none => false) then
    (w, groupInfo,
     [Ev.msg ("Error: An event already exists called \"" ++ title ++
        "\". Please delete it if you wish to make a new one.") threadId])
  else
    match parsedDate with
    | none =>
        (w, groupInfo,
         [Ev.msg "Error: Could not understand that event time." threadId])
    | some ts =>
        let prettyTime := prettyDate ts
        let remindMs := ts - cfg.reminderTime * 60000
        let earlyReminderTime : Option Int :=
          if remindMs ≤ now then none else some remindMs
        let msgText := "Event \"" ++ title ++ "\" created for " ++ prettyTime ++
          (match earlyReminderTime with
           | none => ". I will remind you at the time of the event."
           | some _ => ". I will remind you at the time of the event, and " ++
               toString cfg.reminderTime ++ " minutes early.")
        match sendRes with
        | Except.error _ => (w, groupInfo, [Ev.msg msgText threadId])
        | Except.ok mid =>
            let event : JVal := JVal.obj
              [("type", JVal.str "event"),
               ("title", JVal.str title),
               ("key_title", JVal.str keyTitle),
               ("timestamp", JVal.num ts),
               ("owner", JVal.str sender),
               ("threadId", JVal.str threadId),
               ("pretty_time", JVal.str prettyTime),
               ("remind_time",
                 match earlyReminderTime with
                 | some r => JVal.num r
                 | none => JVal.null),
               ("mid", JVal.str mid),
               ("going", JVal.arr []),
               ("not_going", JVal.arr [])]
            let events' := alistSet events keyTitle event
            let groupInfo' := alistSet groupInfo "events" (JVal.obj events')
            match setGroupProperty "events" (JVal.obj events') groupInfo' w with
            | (w', gi', evs) => (w', gi', Ev.msg msgText threadId :: evs)

/-- A sequence of `setGroupProperty` calls run one after the other,
collecting the emitted effects. -/
def runCalls (calls : List (String × JVal × JObj)) (w : World) :
    World × List Ev :=
  match calls with
  | [] => (w, [])
  | c :: rest =>
      let r := setGroupProperty c.1 c.2.1 c.2.2 w
      let rr := runCalls rest r.1
      (rr.1, r.2.2 ++ rr.2)

/-! ## Basic lemmas about association lists -/

theorem alistGet_set_self {α : Type} (l : List (String × α)) (k : String)
    (v : α) : alistGet (alistSet l k v) k = some v := by
  induction l with
  | nil => simp [alistGet, alistSet]
  | cons p rest ih =>
      by_cases h : p.1 = k
      · simp [alistGet, alistSet, h]
      · simp [alistGet, alistSet, h, ih]

theorem alistGet_set_ne {α : Type} (l : List (String × α)) (k k' : String)
    (v : α) (h : k ≠ k') : alistGet (alistSet l k v) k' = alistGet l k' := by
  induction l with
  | nil => simp [alistGet, alistSet, h]
  | cons p rest ih =>
      by_cases hp : p.1 = k
      · simp [alistGet, alistSet, hp, h]
      · simp [alistGet, alistSet, hp, ih]

/-- No entry of the association list has `v` as its value. -/
def NoValue {α : Type} (l : List (String × α)) (v : α) : Prop :=
  ∀ p ∈ l, p.2 ≠ v

/-- No entry of the association list has `k` as its key. -/
def NoKey {α : Type} (l : List (String × α)) (k : String) : Prop :=
  ∀ p ∈ l, p.1 ≠ k

theorem noValue_alistSet {α : Type} (v x : α) (k : String) :
    ∀ l : List (String × α), NoValue l v → x ≠ v →
      NoValue (alistSet l k x) v := by
  intro l
  induction l with
  | nil =>
      intro _ hx p hp
      simp [alistSet] at hp
      simp [hp, hx]
  | cons q rest ih =>
      obtain ⟨a, b⟩ := q
      intro h hx p hp
      by_cases hq : a = k
      · simp [alistSet, hq] at hp
        rcases hp with h1 | h1
        · simp [h1, hx]
        · exact h p (by simp [h1])
      · simp [alistSet, hq] at hp
        rcases hp with h1 | h1
        · simp [h1]
          exact h (a, b) (by simp)
        · exact ih (fun r hr => h r (by simp [hr])) hx p h1

theorem noKey_alistSet {α : Type} (x : α) (k k' : String) :
    ∀ l : List (String × α), NoKey l k' → k ≠ k' →
      NoKey (alistSet l k x) k' := by
  intro l
  induction l with
  | nil =>
      intro _ hk p hp
      simp [alistSet] at hp
      simp [hp, hk]
  | cons q rest ih =>
      obtain ⟨a, b⟩ := q
      intro h hk p hp
      by_cases hq : a = k
      · simp [alistSet, hq] at hp
        rcases hp with h1 | h1
        · simp [h1, hk]
        · exact h p (by simp [h1])
      · simp [alistSet, hq] at hp
        rcases hp with h1 | h1
        · simp [h1]
          exact h (a, b) (by simp)
        · exact ih (fun r hr => h r (by simp [hr])) hk p h1

theorem buildMembersNames_go (botId : String) :
    ∀ (userData : List (String × UserInfoEntry)) (mn : JObj × JObj),
      NoValue mn.1 (JVal.str botId) → NoKey mn.2 botId →
      NoValue (userData.foldl
        (fun (mn : JObj × JObj) p =>
          if p.1 ≠ botId then
            (alistSet mn.1 (p.2.firstName.toLower) (JVal.str p.1),
             alistSet mn.2 p.1 (JVal.str p.2.firstName))
          else mn) mn).1 (JVal.str botId) ∧
      NoKey (userData.foldl
        (fun (mn : JObj × JObj) p =>
          if p.1 ≠ botId then
            (alistSet mn.1 (p.2.firstName.toLower) (JVal.str p.1),
             alistSet mn.2 p.1 (JVal.str p.2.firstName))
          else mn) mn).2 botId := by
  intro ud
  induction ud with
  | nil => intro mn h1 h2; exact ⟨h1, h2⟩
  | cons p rest ih =>
      intro mn h1 h2
      simp only [List.foldl_cons]
      by_cases hp : p.1 = botId
      · simp only [hp, ne_eq, not_true_eq_false, if_false]
        exact ih mn h1 h2
      · simp only [ne_eq, hp, not_false_eq_true, if_true]
        exact ih _
          (noValue_alistSet _ _ _ _ h1 (by simp [hp]))
          (noKey_alistSet _ _ _ _ h2 hp)

/-- The `members`/`names` rebuild never records the bot: the bot's id
appears neither as a value of `members` nor as a key of `names`. -/
theorem buildMembersNames_no_bot (botId : String)
    (userData : List (String × UserInfoEntry)) :
    NoValue (buildMembersNames botId userData).1 (JVal.str botId) ∧
    NoKey (buildMembersNames botId userData).2 botId := by
  exact buildMembersNames_go botId userData ([], [])
    (fun p hp => absurd hp (List.not_mem_nil p))
    (fun p hp => absurd hp (List.not_mem_nil p))

/-- Normal form of `setGroupInfo` when the store read succeeds: the
whole map, with the record inserted, is written back, and the callback
is invoked with the write error (if any). -/
theorem setGroupInfo_ok (info : JObj) (st : GroupsStore)
    (hget : st.failGet = false) :
    setGroupInfo info st =
      ((if st.failSet then st
        else { st with
          blob := some (alistSet (st.blob.getD []) (recThreadId info) info) }),
       some (if st.failSet then some "memcache set error" else none),
       [Ev.memSet (alistSet (st.blob.getD []) (recThreadId info) info)]) := by
  by_cases hs : st.failSet <;> simp [setGroupInfo, getGroupData, hget, hs]

theorem applyUserInfo_members (cfg : Config)
    (userData : List (String × UserInfoEntry)) (info : JObj) :
    alistGet (applyUserInfo cfg userData info) "members" =
      some (JVal.obj (buildMembersNames cfg.botId userData).1) := by
  simp only [applyUserInfo]
  split
  · rw [alistGet_set_ne _ _ _ _ (by decide),
      alistGet_set_ne _ _ _ _ (by decide),
      alistGet_set_ne _ _ _ _ (by decide), alistGet_set_self]
  · rw [alistGet_set_ne _ _ _ _ (by decide),
      alistGet_set_ne _ _ _ _ (by decide), alistGet_set_self]

theorem applyUserInfo_names (cfg : Config)
    (userData : List (String × UserInfoEntry)) (info : JObj) :
    alistGet (applyUserInfo cfg userData info) "names" =
      some (JVal.obj (buildMembersNames cfg.botId userData).2) := by
  simp only [applyUserInfo]
  split
  · rw [alistGet_set_ne _ _ _ _ (by decide),
      alistGet_set_ne _ _ _ _ (by decide), alistGet_set_self]
  · rw [alistGet_set_ne _ _ _ _ (by decide), alistGet_set_self]

/-- C1 (amended): after a refresh in which the store read and both
provider fetches succeed, the refresher invokes its callback with a
record in which the bot's id appears neither as a value of `members`
nor as a key of `names`; the `admins` list, by contrast, is copied
verbatim from the provider's admin list and may contain the bot (see
the counterexample). -/
theorem updateGroupInfo_bot_excluded (threadId : String)
    (message : Option JVal) (cfg : Config) (prov : Provider)
    (st : GroupsStore) (data : ThreadData)
    (userData : List (String × UserInfoEntry))
    (hget : st.failGet = false)
    (hti : prov.threadInfo = Except.ok data)
    (hui : prov.userInfo = Except.ok userData) :
    ∃ r info,
      (updateGroupInfo threadId message cfg prov st).cb = some (r, some info) ∧
      (∃ m, alistGet info "members" = some (JVal.obj m) ∧
        NoValue m (JVal.str cfg.botId)) ∧
      (∃ n, alistGet info "names" = some (JVal.obj n) ∧ NoKey n cfg.botId) := by
  obtain ⟨hm, hn⟩ := buildMembersNames_no_bot cfg.botId userData
  simp only [updateGroupInfo, getGroupInfo, getGroupData, hget,
    Bool.false_eq_true, if_false, hti, hui, setGroupInfo_ok _ _ hget]
  exact ⟨_, _, rfl,
    ⟨_, applyUserInfo_members cfg userData _, hm⟩,
    ⟨_, applyUserInfo_names cfg userData _, hn⟩⟩

/-- A concrete configuration for witnesses: bot id `B`. -/
def sampleCfg : Config :=
  { botId := "B", botNameLong := "LongBot", botNameShort := none,
    ownerId := "OWNER", defaultTitle := "Unnamed chat",
    dbFailSilently := false, trigger := "!", votePoints := none,
    reminderTime := 60 }

/-- Concrete thread metadata in which the provider reports the bot
(`B`) as an admin of the thread. -/
def sampleThreadData : ThreadData :=
  { threadName := some "Chat", emoji := none, imageSrc := none,
    color := none, nicknames := none,
    adminIDs := some [[("id", JVal.str "B")]],
    participantIDs := ["B", "U1"], isGroup := true }

/-- A provider whose fetches both succeed, reporting the bot as an
admin and as a participant. -/
def sampleProv : Provider :=
  { threadInfo := Except.ok sampleThreadData,
    userInfo := Except.ok [("B", ⟨"Bot"⟩), ("U1", ⟨"Alice"⟩)] }

/-- C1 counterexample: a refresh that completes successfully (the
callback receives a null error) with the provider reporting the bot
(`B`) as a thread admin hands back a record whose `admins` list
contains the bot's id — `updateGroupInfo` copies `adminIDs` verbatim,
excluding the bot only from `members`, `names` and `nicknames`. -/
theorem updateGroupInfo_admins_bot_cex :
    cbErr (updateGroupInfo "T1" none sampleCfg sampleProv
      { blob := none, failGet := false, failSet := false }) = some none ∧
    (cbInfo (updateGroupInfo "T1" none sampleCfg sampleProv
      { blob := none, failGet := false, failSet := false })).bind
        (fun i => alistGet i "admins") = some (JVal.arr [JVal.str "B"]) :=
  ⟨rfl, rfl⟩

/-- Witness for C1's amended theorem at the sample inputs. -/
theorem updateGroupInfo_bot_excluded_witness :
    (⟨none, false, false⟩ : GroupsStore).failGet = false ∧
    sampleProv.threadInfo = Except.ok sampleThreadData ∧
    sampleProv.userInfo =
      Except.ok [("B", ⟨"Bot"⟩), ("U1", ⟨"Alice"⟩)] ∧
    (∃ r info,
      (updateGroupInfo "T1" none sampleCfg sampleProv
        ⟨none, false, false⟩).cb = some (r, some info) ∧
      (∃ m, alistGet info "members" = some (JVal.obj m) ∧
        NoValue m (JVal.str sampleCfg.botId)) ∧
      (∃ n, alistGet info "names" = some (JVal.obj n) ∧
        NoKey n sampleCfg.botId)) :=
  ⟨rfl, rfl, rfl,
   updateGroupInfo_bot_excluded "T1" none sampleCfg sampleProv
     ⟨none, false, false⟩ sampleThreadData
     [("B", ⟨"Bot"⟩), ("U1", ⟨"Alice"⟩)] rfl rfl rfl⟩

/-- C4: if the provider's live thread-metadata fetch fails during a
refresh, `updateGroupInfo` aborts: the store is untouched (no
`Ev.memSet` is ever emitted), the failure is logged, and the callback
is invoked with the fetch error. -/
theorem updateGroupInfo_threadInfoFail_abort (threadId : String)
    (message : Option JVal) (cfg : Config) (prov : Provider)
    (st : GroupsStore) (e : String)
    (hget : st.failGet = false)
    (hti : prov.threadInfo = Except.error e) :
    (updateGroupInfo threadId message cfg prov st).store = st ∧
    (updateGroupInfo threadId message cfg prov st).cb = some (some e, none) ∧
    Ev.log e ∈ (updateGroupInfo threadId message cfg prov st).trace ∧
    ∀ g, Ev.memSet g ∉ (updateGroupInfo threadId message cfg prov st).trace := by
  simp only [updateGroupInfo, getGroupInfo, getGroupData, hget,
    Bool.false_eq_true, if_false, hti]
  refine ⟨trivial, trivial, by simp, ?_⟩
  intro g
  by_cases h1 : (alistGet (st.blob.getD []) threadId).isNone <;>
    by_cases h2 : (!cfg.dbFailSilently ||
      (alistGet (st.blob.getD []) cfg.ownerId).isSome) = true <;>
    simp [h1, h2]

/-- Witness for C4 at a concrete failing provider. -/
theorem updateGroupInfo_threadInfoFail_abort_witness :
    (⟨none, false, false⟩ : GroupsStore).failGet = false ∧
    (⟨Except.error "no thread info", Except.error "no user info"⟩ :
        Provider).threadInfo = Except.error "no thread info" ∧
    (updateGroupInfo "T1" none sampleCfg
        ⟨Except.error "no thread info", Except.error "no user info"⟩
        ⟨none, false, false⟩).store = ⟨none, false, false⟩ ∧
    (updateGroupInfo "T1" none sampleCfg
        ⟨Except.error "no thread info", Except.error "no user info"⟩
        ⟨none, false, false⟩).cb = some (some "no thread info", none) :=
  ⟨rfl, rfl,
   (updateGroupInfo_threadInfoFail_abort "T1" none sampleCfg _ _
     "no thread info" rfl rfl).1,
   (updateGroupInfo_threadInfoFail_abort "T1" none sampleCfg _ _
     "no thread info" rfl rfl).2.1⟩

/-- Normal form of `setGroupProperty` on a locked thread: the call is a
no-op. -/
theorem setGroupProperty_locked_eq (key : String) (value : JVal)
    (info : JObj) (w : World) (h : recThreadId info ∈ w.lockedThreads) :
    setGroupProperty key value info w = (w, info, []) := by
  simp only [setGroupProperty]
  rw [if_neg]
  simp only [List.contains_iff_exists_mem_beq, Bool.not_eq_false,
    bne_iff_ne, ne_eq]
  simp only [beq_iff_eq]
  exact ⟨_, h, rfl⟩

/-- C2: a `setGroupProperty` call for a thread already in the lock set
is a silent no-op — the record is not mutated, nothing is persisted and
no callback is ever invoked (the emitted effect list is empty). -/
theorem setGroupProperty_locked_noop (key : String) (value : JVal)
    (info : JObj) (w : World)
    (h : recThreadId info ∈ w.lockedThreads) :
    setGroupProperty key value info w = (w, info, []) :=
  setGroupProperty_locked_eq key value info w h

/-- Witness for C2 at a concrete locked world. -/
theorem setGroupProperty_locked_noop_witness :
    recThreadId [("threadId", JVal.str "T1")] ∈
      (⟨⟨none, false, false⟩, ["T1"]⟩ : World).lockedThreads ∧
    setGroupProperty "muted" (JVal.bool true)
        [("threadId", JVal.str "T1")] ⟨⟨none, false, false⟩, ["T1"]⟩ =
      (⟨⟨none, false, false⟩, ["T1"]⟩, [("threadId", JVal.str "T1")], []) :=
  ⟨by simp [recThreadId, alistGet],
   setGroupProperty_locked_noop "muted" (JVal.bool true)
     [("threadId", JVal.str "T1")] ⟨⟨none, false, false⟩, ["T1"]⟩
     (by simp [recThreadId, alistGet])⟩

/-- Normal form of `setGroupProperty` on an unlocked thread when the
store read succeeds. -/
theorem setGroupProperty_unlocked_eq (key : String) (value : JVal)
    (info : JObj) (w : World)
    (hlock : recThreadId info ∉ w.lockedThreads)
    (hget : w.store.failGet = false) :
    setGroupProperty key value info w =
      ({ store :=
           if w.store.failSet then w.store
           else { w.store with
             blob := some (alistSet (w.store.blob.getD [])
               (recThreadId (alistSet info key value))
               (alistSet info key value)) },
         lockedThreads := (w.lockedThreads ++
             [recThreadId (alistSet info key value)]).filter
           (fun t => t ≠ recThreadId (alistSet info key value)) },
       alistSet info key value,
       [Ev.wait 1500,
        Ev.memSet (alistSet (w.store.blob.getD [])
          (recThreadId (alistSet info key value)) (alistSet info key value)),
        Ev.cb (if w.store.failSet then some "memcache set error" else none)]) := by
  have hc : w.lockedThreads.contains (recThreadId info) = false := by
    simpa using hlock
  simp [setGroupProperty, hc, setGroupInfo_ok _ _ hget]
  exact hlock

/-- Normal form of `setGroupProperty` on an unlocked thread when the
store read fails: the record is mutated and the thread id pushed, but
`setGroupInfo` swallows the read error, so no callback ever fires and
the lock is never removed. -/
theorem setGroupProperty_readFail_eq (key : String) (value : JVal)
    (info : JObj) (w : World)
    (hlock : recThreadId info ∉ w.lockedThreads)
    (hget : w.store.failGet = true) :
    setGroupProperty key value info w =
      ({ store := w.store,
         lockedThreads := w.lockedThreads ++
           [recThreadId (alistSet info key value)] },
       alistSet info key value, [Ev.wait 1500]) := by
  have hc : w.lockedThreads.contains (recThreadId info) = false := by
    simpa using hlock
  simp [setGroupProperty, hc, setGroupInfo, getGroupData, hget]
  exact hlock

/-- C3 counterexample: an unlocked call at a store whose read fails
mutates the record and waits the settle interval, but the emitted
effect list is `[Ev.wait 1500]` alone — nothing is persisted, the
callback is never invoked, and the thread id (`T1`) is left in the
lock set rather than removed — refuting the claim's unconditional
"persists … removes threadId from the lock set, and invokes the
callback". -/
theorem setGroupProperty_unlocked_cex :
    recThreadId [("threadId", JVal.str "T1")] ∉ ([] : List String) ∧
    setGroupProperty "muted" (JVal.bool true) [("threadId", JVal.str "T1")]
        ⟨⟨none, true, false⟩, []⟩ =
      (⟨⟨none, true, false⟩, ["T1"]⟩,
       [("threadId", JVal.str "T1"), ("muted", JVal.bool true)],
       [Ev.wait 1500]) :=
  ⟨by simp, rfl⟩

/-- C3 (amended): a `setGroupProperty` call for an unlocked thread
sets `record[key] = value` in memory (leaving every other field
unchanged), adds the thread id to the lock set and waits the fixed
1500 ms settle interval; then, if the store read inside the persist
succeeds, it persists the entire record — the full mutated object, not
just the one field — into the stored map, removes the thread id from
the lock set, and invokes the callback with the store error if any
(`none` on success); but if the store read fails, nothing is
persisted, the callback is never invoked, and the thread id is never
removed from the lock set. -/
theorem setGroupProperty_unlocked_spec (key : String) (value : JVal)
    (info : JObj) (w : World)
    (hlock : recThreadId info ∉ w.lockedThreads) :
    (setGroupProperty key value info w).2.1 = alistSet info key value ∧
    alistGet (setGroupProperty key value info w).2.1 key = some value ∧
    (∀ k', k' ≠ key →
      alistGet (setGroupProperty key value info w).2.1 k' =
        alistGet info k') ∧
    ((setGroupProperty key value info w).2.2).head? =
      some (Ev.wait 1500) ∧
    (w.store.failGet = false →
      (setGroupProperty key value info w).2.2 =
        [Ev.wait 1500,
         Ev.memSet (alistSet (w.store.blob.getD [])
           (recThreadId (alistSet info key value))
           (alistSet info key value)),
         Ev.cb (if w.store.failSet then some "memcache set error"
           else none)] ∧
      alistGet (alistSet (w.store.blob.getD [])
          (recThreadId (alistSet info key value)) (alistSet info key value))
          (recThreadId (alistSet info key value)) =
        some (alistSet info key value) ∧
      (w.store.failSet = false →
        (setGroupProperty key value info w).1.store.blob =
          some (alistSet (w.store.blob.getD [])
            (recThreadId (alistSet info key value))
            (alistSet info key value))) ∧
      (w.store.failSet = true →
        (setGroupProperty key value info w).1.store = w.store) ∧
      recThreadId (alistSet info key value) ∉
        (setGroupProperty key value info w).1.lockedThreads) ∧
    (w.store.failGet = true →
      (setGroupProperty key value info w).2.2 = [Ev.wait 1500] ∧
      (setGroupProperty key value info w).1.store = w.store ∧
      recThreadId (alistSet info key value) ∈
        (setGroupProperty key value info w).1.lockedThreads) := by
  by_cases hget : w.store.failGet = true
  · rw [setGroupProperty_readFail_eq key value info w hlock hget]
    refine ⟨rfl, alistGet_set_self _ _ _,
      fun k' hk => alistGet_set_ne _ _ _ _ (Ne.symm hk), rfl,
      fun hf => by rw [hf] at hget; exact absurd hget (by decide),
      fun _ => ⟨rfl, rfl, by simp⟩⟩
  · have hget' : w.store.failGet = false := by simpa using hget
    rw [setGroupProperty_unlocked_eq key value info w hlock hget']
    refine ⟨rfl, alistGet_set_self _ _ _,
      fun k' hk => alistGet_set_ne _ _ _ _ (Ne.symm hk), rfl,
      fun _ => ⟨rfl, alistGet_set_self _ _ _,
        fun h => by simp [h], fun h => by simp [h],
        by simp [List.mem_filter]⟩,
      fun ht => by rw [hget'] at ht; exact absurd ht (by decide)⟩

/-- Witness for C3's amended theorem at a concrete unlocked world. -/
theorem setGroupProperty_unlocked_spec_witness :
    recThreadId [("threadId", JVal.str "T1")] ∉
      (⟨⟨none, false, false⟩, []⟩ : World).lockedThreads ∧
    (setGroupProperty "muted" (JVal.bool true) [("threadId", JVal.str "T1")]
        ⟨⟨none, false, false⟩, []⟩).2.1 =
      alistSet [("threadId", JVal.str "T1")] "muted" (JVal.bool true) :=
  ⟨by simp,
   (setGroupProperty_unlocked_spec "muted" (JVal.bool true)
      [("threadId", JVal.str "T1")] ⟨⟨none, false, false⟩, []⟩
      (by simp)).1⟩

/-- Any sequence of `setGroupProperty` calls whose threads are all
locked leaves the world unchanged and emits nothing. -/
theorem runCalls_locked :
    ∀ (calls : List (String × JVal × JObj)) (w : World),
      (∀ c ∈ calls, recThreadId c.2.2 ∈ w.lockedThreads) →
      runCalls calls w = (w, []) := by
  intro calls
  induction calls with
  | nil => intro w _; rfl
  | cons c rest ih =>
      intro w h
      have hc := setGroupProperty_locked_eq c.1 c.2.1 c.2.2 w (h c (by simp))
      simp [runCalls, hc, ih w (fun d hd => h d (by simp [hd]))]

/-- C9: if the KV read inside the persist step fails, `setGroupInfo`
never invokes its completion callback (no `Ev.cb` is emitted), the
thread id is never removed from the lock set, and from then on every
`setGroupProperty` call for that thread id is a silent no-op (the
in-memory lock set only resets on process restart). -/
theorem setGroupProperty_readFail_lockout (key : String) (value : JVal)
    (info : JObj) (w : World)
    (hlock : recThreadId info ∉ w.lockedThreads)
    (hget : w.store.failGet = true) :
    setGroupProperty key value info w =
      ({ store := w.store,
         lockedThreads := w.lockedThreads ++
           [recThreadId (alistSet info key value)] },
       alistSet info key value, [Ev.wait 1500]) ∧
    (∀ r, Ev.cb r ∉ (setGroupProperty key value info w).2.2) ∧
    recThreadId (alistSet info key value) ∈
      (setGroupProperty key value info w).1.lockedThreads ∧
    ∀ calls : List (String × JVal × JObj),
      (∀ c ∈ calls, recThreadId c.2.2 = recThreadId (alistSet info key value)) →
      runCalls calls (setGroupProperty key value info w).1 =
        ((setGroupProperty key value info w).1, []) := by
  have he := setGroupProperty_readFail_eq key value info w hlock hget
  refine ⟨he, ?_, ?_, ?_⟩
  · intro r; rw [he]; simp
  · rw [he]; simp
  · intro calls hcalls
    rw [he]
    exact runCalls_locked calls _ (fun c hc => by simp [hcalls c hc])

/-- Witness for C9 at a concrete world whose store read fails. -/
theorem setGroupProperty_readFail_lockout_witness :
    recThreadId [("threadId", JVal.str "T1")] ∉
      (⟨⟨none, true, false⟩, []⟩ : World).lockedThreads ∧
    (⟨⟨none, true, false⟩, []⟩ : World).store.failGet = true ∧
    setGroupProperty "muted" (JVal.bool true) [("threadId", JVal.str "T1")]
        ⟨⟨none, true, false⟩, []⟩ =
      ({ store := (⟨⟨none, true, false⟩, []⟩ : World).store,
         lockedThreads := (⟨⟨none, true, false⟩, []⟩ : World).lockedThreads ++
           [recThreadId (alistSet [("threadId", JVal.str "T1")] "muted"
             (JVal.bool true))] },
       alistSet [("threadId", JVal.str "T1")] "muted" (JVal.bool true),
       [Ev.wait 1500]) :=
  ⟨by simp, rfl,
   (setGroupProperty_readFail_lockout "muted" (JVal.bool true)
      [("threadId", JVal.str "T1")] ⟨⟨none, true, false⟩, []⟩
      (by simp) rfl).1⟩

/-- C5 counterexample: when the read of the `groups` blob fails,
`setGroupInfo` does not report the failure to its caller — its callback
is never invoked (`none`), refuting the claim that every store read
failure during a Group Record Store operation propagates to the
caller. -/
theorem setGroupInfo_read_swallow_cex :
    (setGroupInfo [("threadId", JVal.str "T1")]
      ⟨none, true, false⟩).2.1 = none := rfl

/-- C5 (amended): read failures propagate from `getGroupData` and
`getGroupInfo` to their callers with no retry, and `setGroupInfo`
reports KV write failures to its callback; but a failure of
`setGroupInfo`'s initial read of the group blob is swallowed — its
callback is never invoked. -/
theorem storeErrors_propagation (st : GroupsStore) (threadId : String)
    (info : JObj) :
    (st.failGet = true →
      getGroupData st = Except.error "memcache get error") ∧
    (st.failGet = true →
      getGroupInfo threadId st = Except.error "memcache get error") ∧
    (st.failGet = false → st.failSet = true →
      (setGroupInfo info st).2.1 = some (some "memcache set error")) ∧
    (st.failGet = true → (setGroupInfo info st).2.1 = none) :=
  ⟨fun h => by simp [getGroupData, h],
   fun h => by simp [getGroupInfo, getGroupData, h],
   fun h1 h2 => by simp [setGroupInfo, getGroupData, h1, h2],
   fun h => by simp [setGroupInfo, getGroupData, h]⟩

/-- Witness for C5's amended theorem at concrete failing stores. -/
theorem storeErrors_propagation_witness :
    getGroupData ⟨none, true, false⟩ = Except.error "memcache get error" ∧
    getGroupInfo "T1" ⟨none, true, false⟩ =
      Except.error "memcache get error" ∧
    (setGroupInfo [] ⟨none, false, true⟩).2.1 =
      some (some "memcache set error") ∧
    (setGroupInfo [] ⟨none, true, false⟩).2.1 = none :=
  ⟨(storeErrors_propagation ⟨none, true, false⟩ "T1" []).1 rfl,
   (storeErrors_propagation ⟨none, true, false⟩ "T1" []).2.1 rfl,
   (storeErrors_propagation ⟨none, false, true⟩ "T1" []).2.2.1 rfl rfl,
   (storeErrors_propagation ⟨none, true, false⟩ "T1" []).2.2.2 rfl⟩

/-- The score `updateScore` reads for a user: the stored string parsed
as an integer, 0 when absent. -/
def currentScore (st : ScoreStore) (userId : String) : Int :=
  match alistGet st.data ("userscore_" ++ userId) with
  | some s => parseIntJS s
  | none => 0

/-- Normal form of `updateScore` when neither KV operation fails. -/
theorem updateScore_ok (isAdd : Bool) (userId : String) (cfg : Config)
    (st : ScoreStore)
    (hg : ("userscore_" ++ userId) ∉ st.failGet)
    (hs : ("userscore_" ++ userId) ∉ st.failSet) :
    updateScore isAdd userId cfg st =
      ({ st with
           data :=
             alistSet st.data ("userscore_" ++ userId)
               (toString
                 (if isAdd then currentScore st userId + cfg.votePoints.getD 5
                  else currentScore st userId - cfg.votePoints.getD 5)) },
       [ScoreCb.done none true
          (if isAdd then currentScore st userId + cfg.votePoints.getD 5
           else currentScore st userId - cfg.votePoints.getD 5)]) := by
  simp [updateScore, getScore, scoreMemGet, setScore, scoreMemSet, hg, hs,
    currentScore]

/-- C6: with the default point value (no configured `votePoints`),
adding a vote for `U1` with no stored score yields 5; a second add
yields 10; and removing a vote when the stored score is `10` yields
5. -/
theorem updateScore_default_points (cfg : Config) (st : ScoreStore)
    (hp : cfg.votePoints = none)
    (hg : st.failGet = []) (hs : st.failSet = [])
    (habs : alistGet st.data ("userscore_" ++ "U1") = none) :
    (updateScore true "U1" cfg st).2 = [ScoreCb.done none true 5] ∧
    alistGet (updateScore true "U1" cfg st).1.data ("userscore_" ++ "U1") =
      some "5" ∧
    (updateScore true "U1" cfg (updateScore true "U1" cfg st).1).2 =
      [ScoreCb.done none true 10] ∧
    ∀ st' : ScoreStore, st'.failGet = [] → st'.failSet = [] →
      alistGet st'.data ("userscore_" ++ "U1") = some "10" →
      (updateScore false "U1" cfg st').2 = [ScoreCb.done none true 5] := by
  have hcur : currentScore st "U1" = 0 := by
    simp only [currentScore, habs]
  have h1 := updateScore_ok true "U1" cfg st (by simp [hg]) (by simp [hs])
  rw [h1]
  have hval : (if true then currentScore st "U1" + cfg.votePoints.getD 5
      else currentScore st "U1" - cfg.votePoints.getD 5) = 5 := by
    simp [hcur, hp]
  rw [hval]
  refine ⟨rfl, ?_, ?_, ?_⟩
  · show alistGet (alistSet st.data ("userscore_" ++ "U1")
      (toString (5 : Int))) ("userscore_" ++ "U1") = some "5"
    rw [alistGet_set_self]
    decide
  · show (updateScore true "U1" cfg
      { st with
          data := alistSet st.data ("userscore_" ++ "U1")
            (toString (5 : Int)) }).2 = [ScoreCb.done none true 10]
    have h2 := updateScore_ok true "U1" cfg
      { st with
          data := alistSet st.data ("userscore_" ++ "U1")
            (toString (5 : Int)) }
      (by simp [hg]) (by simp [hs])
    rw [h2]
    have hcur2 : currentScore
        { st with
            data := alistSet st.data "userscore_U1"
              (toString (5 : Int)) } "U1" = 5 := by
      simp only [currentScore]
      rw [show ("userscore_" ++ "U1") = "userscore_U1" from rfl,
        alistGet_set_self]
      decide
    simp [hcur2, hp]
  · intro st' hg' hs' hv
    have h3 := updateScore_ok false "U1" cfg st' (by simp [hg']) (by simp [hs'])
    rw [h3]
    have hcur3 : currentScore st' "U1" = 10 := by
      simp only [currentScore, hv]
      decide
    simp [hcur3, hp]

/-- Witness for C6 at the empty score store. -/
theorem updateScore_default_points_witness :
    sampleCfg.votePoints = none ∧
    (⟨[], [], []⟩ : ScoreStore).failGet = [] ∧
    (⟨[], [], []⟩ : ScoreStore).failSet = [] ∧
    alistGet (⟨[], [], []⟩ : ScoreStore).data ("userscore_" ++ "U1") =
      none ∧
    (updateScore true "U1" sampleCfg ⟨[], [], []⟩).2 =
      [ScoreCb.done none true 5] :=
  ⟨rfl, rfl, rfl, rfl,
   (updateScore_default_points sampleCfg ⟨[], [], []⟩ rfl rfl rfl rfl).1⟩

/-- C10: if the KV read of the current score fails, `updateScore`
invokes its callback with the read error and then still continues (the
source has no `return` after the error branch): it treats the current
score as 0, writes 0 plus-or-minus the configured points back to the
store, and invokes the callback a second time with the write result. -/
theorem updateScore_readFail_two_callbacks (isAdd : Bool) (userId : String)
    (cfg : Config) (st : ScoreStore)
    (hg : ("userscore_" ++ userId) ∈ st.failGet)
    (hs : ("userscore_" ++ userId) ∉ st.failSet) :
    updateScore isAdd userId cfg st =
      ({ st with
           data :=
             alistSet st.data ("userscore_" ++ userId)
               (toString
                 (if isAdd then (0 : Int) + cfg.votePoints.getD 5
                  else (0 : Int) - cfg.votePoints.getD 5)) },
       [ScoreCb.fail "memcache get error",
        ScoreCb.done none true
          (if isAdd then (0 : Int) + cfg.votePoints.getD 5
           else (0 : Int) - cfg.votePoints.getD 5)]) := by
  simp [updateScore, getScore, scoreMemGet, setScore, scoreMemSet, hg, hs]

/-- Witness for C10 at a store whose read of `U1`'s score fails. -/
theorem updateScore_readFail_two_callbacks_witness :
    ("userscore_" ++ "U1") ∈
      (⟨[], ["userscore_U1"], []⟩ : ScoreStore).failGet ∧
    ("userscore_" ++ "U1") ∉
      (⟨[], ["userscore_U1"], []⟩ : ScoreStore).failSet ∧
    (updateScore true "U1" sampleCfg ⟨[], ["userscore_U1"], []⟩).2 =
      [ScoreCb.fail "memcache get error", ScoreCb.done none true 5] :=
  ⟨by decide, by decide,
   by rw [updateScore_readFail_two_callbacks true "U1" sampleCfg
       ⟨[], ["userscore_U1"], []⟩ (by decide) (by decide)]
      norm_num [sampleCfg]⟩

/-- C8 counterexample: `setScore` stores under `userscore_<userId>`,
not `score:<userId>` — after writing `U1`'s score into an empty store
the key `score:U1` is absent and `userscore_U1` holds the value. -/
theorem setScore_key_cex :
    alistGet (setScore "U1" "5" ⟨[], [], []⟩).1.data "score:U1" = none ∧
    alistGet (setScore "U1" "5" ⟨[], [], []⟩).1.data "userscore_U1" =
      some "5" :=
  ⟨rfl, rfl⟩

/-- C8 (amended): the ledger stores `U`'s score under the KV key
`userscore_<userId>`: `setScore` writes `userscore_ ++ U`, `getScore`
reads the very same key, and a written score is read back. -/
theorem score_key_userscore (U s : String) (st : ScoreStore)
    (hs : ("userscore_" ++ U) ∉ st.failSet)
    (hg : ("userscore_" ++ U) ∉ st.failGet) :
    setScore U s st = scoreMemSet st ("userscore_" ++ U) s ∧
    getScore U st = scoreMemGet st ("userscore_" ++ U) ∧
    (setScore U s st).2.2 = true ∧
    getScore U (setScore U s st).1 = Except.ok (some s) := by
  have hg' : st.failGet.contains ("userscore_" ++ U) = false := by
    simpa using hg
  have hs' : st.failSet.contains ("userscore_" ++ U) = false := by
    simpa using hs
  refine ⟨rfl, rfl, ?_, ?_⟩
  · simp [setScore, scoreMemSet, hs', hs]
  · simp [setScore, scoreMemSet, getScore, scoreMemGet, hs', hg', hs, hg,
      alistGet_set_self]

/-- Witness for C8's amended theorem. -/
theorem score_key_userscore_witness :
    ("userscore_" ++ "U1") ∉ (⟨[], [], []⟩ : ScoreStore).failSet ∧
    ("userscore_" ++ "U1") ∉ (⟨[], [], []⟩ : ScoreStore).failGet ∧
    getScore "U1" (setScore "U1" "7" ⟨[], [], []⟩).1 =
      Except.ok (some "7") :=
  ⟨by decide, by decide,
   (score_key_userscore "U1" "7" ⟨[], [], []⟩ (by decide) (by decide)).2.2.2⟩

/-- C7: `addEvent` with a title whose trim-and-lowercase normalization
is already a (truthy) key of the record's `events` map fails: a single
error message is sent, and the world, the record — and with it the
existing event entry — are left exactly as they were; nothing is
persisted. -/
theorem addEvent_duplicate_noop (title atStr sender threadId : String)
    (cfg : Config) (parsedDate : Option Int) (now : Int)
    (sendRes : Except String String) (w : World) (groupInfo : JObj)
    (v : JVal)
    (hdup : alistGet (objField groupInfo "events") (jsTrimLower title) =
      some v)
    (htr : jsTruthy v = true) :
    addEvent title atStr sender groupInfo threadId cfg parsedDate now
        sendRes w =
      (w, groupInfo,
       [Ev.msg ("Error: An event already exists called \"" ++ title ++
          "\". Please delete it if you wish to make a new one.")
         threadId]) := by
  simp [addEvent, hdup, htr]

/-- Witness for C7: an event `party` already exists and the title
`"Party "` normalizes onto it. -/
theorem addEvent_duplicate_noop_witness :
    alistGet (objField [("threadId", JVal.str "T1"),
        ("events", JVal.obj [("party", JVal.obj [])])] "events")
      (jsTrimLower "Party ") = some (JVal.obj []) ∧
    jsTruthy (JVal.obj []) = true ∧
    addEvent "Party " "tomorrow" "U1"
        [("threadId", JVal.str "T1"),
         ("events", JVal.obj [("party", JVal.obj [])])]
        "T1" sampleCfg (some 1000) 0 (Except.ok "MID")
        ⟨⟨none, false, false⟩, []⟩ =
      (⟨⟨none, false, false⟩, []⟩,
       [("threadId", JVal.str "T1"),
        ("events", JVal.obj [("party", JVal.obj [])])],
       [Ev.msg ("Error: An event already exists called \"" ++ "Party " ++
          "\". Please delete it if you wish to make a new one.") "T1"]) :=
  ⟨rfl, rfl,
   addEvent_duplicate_noop "Party " "tomorrow" "U1" "T1" sampleCfg
     (some 1000) 0 (Except.ok "MID") ⟨⟨none, false, false⟩, []⟩
     [("threadId", JVal.str "T1"),
      ("events", JVal.obj [("party", JVal.obj [])])]
     (JVal.obj []) rfl rfl⟩
